import Mathlib

/-
  Verification of the lunch-notification subscription service (src/app.js)
  against its design specification.

  The embedding models JavaScript string-keyed objects as insertion-ordered
  association lists, asynchronous external calls (channel binding creation,
  sends, menu fetches, file writes) as outcome oracles passed to the model,
  and each HTTP handler as a pure function from the pre-state and the oracle
  to the post-state together with the observable effects (responses, external
  calls issued, persistence count).
-/

namespace LunchButton

/-- A JavaScript object with string keys, as an insertion-ordered association list. -/
abbrev Obj (α : Type) : Type := List (String × α)

/-- Property read `m[k]`: the value at the first matching key, if any. -/
def getKey {α : Type} (m : Obj α) (k : String) : Option α :=
  match m with
  | [] => none
  | q :: rest => if q.1 = k then some q.2 else getKey rest k

/-- Property write `m[k] = v`: update in place if present, else append. -/
def setKey {α : Type} (m : Obj α) (k : String) (v : α) : Obj α :=
  match m with
  | [] => [(k, v)]
  | q :: rest => if q.1 = k then (k, v) :: rest else q :: setKey rest k v

/-- Property removal `delete m[k]`. -/
def delKey {α : Type} (m : Obj α) (k : String) : Obj α :=
  match m with
  | [] => []
  | q :: rest => if q.1 = k then delKey rest k else q :: delKey rest k

theorem getKey_setKey_self {α : Type} (m : Obj α) (k : String) (v : α) :
    getKey (setKey m k v) k = some v := by
  induction m with
  | nil => simp [setKey, getKey]
  | cons q rest ih =>
    by_cases h : q.1 = k
    · simp [setKey, getKey, h]
    · simp [setKey, getKey, h, ih]

theorem getKey_setKey_ne {α : Type} (m : Obj α) (k k2 : String) (v : α) (h : k2 ≠ k) :
    getKey (setKey m k v) k2 = getKey m k2 := by
  induction m with
  | nil => simp [setKey, getKey, Ne.symm h]
  | cons q rest ih =>
    by_cases hq : q.1 = k
    · simp [setKey, getKey, hq, Ne.symm h]
    · simp [setKey, getKey, hq, ih]

theorem getKey_delKey_self {α : Type} (m : Obj α) (k : String) :
    getKey (delKey m k) k = none := by
  induction m with
  | nil => simp [delKey, getKey]
  | cons q rest ih =>
    by_cases h : q.1 = k
    · simpa [delKey, h] using ih
    · simpa [delKey, getKey, h] using ih

theorem getKey_delKey_ne {α : Type} (m : Obj α) (k k2 : String) (h : k2 ≠ k) :
    getKey (delKey m k) k2 = getKey m k2 := by
  induction m with
  | nil => simp [delKey, getKey]
  | cons q rest ih =>
    by_cases hq : q.1 = k
    · have hq2 : q.1 ≠ k2 := fun hh => h (hh ▸ hq)
      simp only [delKey, hq, if_true]
      rw [ih]
      simp [getKey, hq2]
    · by_cases hq2 : q.1 = k2
      · simp [delKey, hq, getKey, hq2, h]
      · simp [delKey, hq, getKey, hq2, ih]

theorem getKey_some_mem {α : Type} (m : Obj α) (k : String) (v : α)
    (h : getKey m k = some v) : (k, v) ∈ m := by
  induction m with
  | nil => simp [getKey] at h
  | cons q rest ih =>
    by_cases hq : q.1 = k
    · have hv : q.2 = v := by simpa [getKey, hq] using h
      have hqe : q = (k, v) := by
        cases q
        simp_all
      rw [hqe]
      exact List.mem_cons_self _ _
    · exact List.mem_cons_of_mem _ (ih (by simpa [getKey, hq] using h))

theorem mem_getKey_of_nodup {α : Type} (m : Obj α) (k : String) (v : α)
    (hnd : (m.map Prod.fst).Nodup) (h : (k, v) ∈ m) : getKey m k = some v := by
  induction m with
  | nil => simp at h
  | cons q rest ih =>
    rw [List.map_cons, List.nodup_cons] at hnd
    rcases List.mem_cons.mp h with h1 | h1
    · rw [← h1]
      simp [getKey]
    · have hkmem : k ∈ rest.map Prod.fst := List.mem_map.mpr ⟨(k, v), h1, rfl⟩
      have hkne : q.1 ≠ k := fun hk => hnd.1 (hk ▸ hkmem)
      simp only [getKey, hkne, if_false]
      exact ih hnd.2 h1

theorem getKey_isSome_iff {α : Type} (m : Obj α) (k : String) :
    (getKey m k).isSome = true ↔ ∃ v, (k, v) ∈ m := by
  induction m with
  | nil => simp [getKey]
  | cons q rest ih =>
    by_cases hq : q.1 = k
    · constructor
      · intro _
        refine ⟨q.2, ?_⟩
        cases q
        simp_all
      · intro _
        simp [getKey, hq]
    · simp only [getKey, hq, if_false]
      rw [ih]
      constructor
      · rintro ⟨v, hv⟩
        exact ⟨v, List.mem_cons_of_mem _ hv⟩
      · rintro ⟨v, hv⟩
        rcases List.mem_cons.mp hv with h1 | h1
        · exact absurd (congrArg Prod.fst h1.symm) hq
        · exact ⟨v, h1⟩

/- ---------------------------------------------------------------------
   Subscriber registry data model (src/app.js lines 40-46, 142-176)
--------------------------------------------------------------------- -/

abbrev Identity := String

abbrev Channel := String

abbrev Handle := String

/-- One identity's channel-kind to binding-handle map. -/
abbrev Bindings := Obj Handle

/-- The registry: the `users` object of src/app.js. -/
abbrev Users := Obj Bindings

/-- The constant marker stored for the no-op `slack` channel
    (src/app.js line 148). -/
def SLACK_BINDING : Handle := "https://www.slack.com/notifyme"

/-- The settled outcome of one channel-binding creation attempt
    (`notify.addBinding`, an external call): the handle on fulfilment,
    an error on rejection. -/
abbrev BindOutcome := Channel → Except String Handle

/-- The binding a single channel of a subscribe command contributes once its
    attempt has settled (src/app.js lines 146-163): `slack` stores the
    constant marker synchronously; any other channel stores the handle
    returned by `notify.addBinding` on success and nothing on failure. -/
def channelAttempt (outcome : BindOutcome) (c : Channel) : Option Handle :=
  if c = "slack" then some SLACK_BINDING
  else
    match outcome c with
    | Except.ok h => some h
    | Except.error _ => none

/-- The fresh binding object built by the subscribe branch after every
    channel attempt has settled: starting from the empty object
    (`users[command.identity] = {}`, line 143), each channel whose attempt
    succeeded has written its handle. -/
def subscribeBindings (outcome : BindOutcome) (channels : List Channel) : Bindings :=
  channels.foldl
    (fun b c =>
      match channelAttempt outcome c with
      | some h => setKey b c h
      | none => b)
    []

/-- Registry state after `Subscribe(identity, channels, addr)` has settled
    (src/app.js lines 142-163): the identity's entry is replaced wholesale. -/
def subscribe (users : Users) (identity : Identity) (channels : List Channel)
    (outcome : BindOutcome) : Users :=
  setKey users identity (subscribeBindings outcome channels)

/-- GET /users (src/app.js lines 181-184): `res.send(users)` returns the
    registry as-is. -/
def listUsers (users : Users) : Users := users

theorem getKey_subscribeBindings_aux (outcome : BindOutcome) (c : Channel) :
    ∀ (channels : List Channel) (acc : Bindings),
      getKey
        (channels.foldl
          (fun b ch =>
            match channelAttempt outcome ch with
            | some h => setKey b ch h
            | none => b)
          acc) c =
      if c ∈ channels ∧ (channelAttempt outcome c).isSome then channelAttempt outcome c
      else getKey acc c := by
  intro channels
  induction channels with
  | nil => intro acc; simp
  | cons d tl ih =>
    intro acc
    rw [List.foldl_cons, ih]
    by_cases hmem : c ∈ tl ∧ (channelAttempt outcome c).isSome
    · simp only [hmem, if_true]
      have : c ∈ d :: tl ∧ (channelAttempt outcome c).isSome = true :=
        ⟨List.mem_cons_of_mem _ hmem.1, hmem.2⟩
      simp [this]
    · simp only [hmem, if_false]
      by_cases hdc : d = c
      · subst hdc
        cases hAtt : channelAttempt outcome d with
        | none =>
          have : ¬(d ∈ d :: tl ∧ (channelAttempt outcome d).isSome) := by
            simp [hAtt]
          simp [this, hAtt]
        | some h =>
          have : d ∈ d :: tl ∧ (channelAttempt outcome d).isSome := by
            simp [hAtt]
          simp [this, hAtt, getKey_setKey_self]
      · have hnotc : ¬(c ∈ d :: tl ∧ (channelAttempt outcome c).isSome) := by
          intro hc
          rcases List.mem_cons.mp hc.1 with h1 | h1
          · exact hdc h1.symm
          · exact hmem ⟨h1, hc.2⟩
        simp only [hnotc, if_false]
        cases hAtt : channelAttempt outcome d with
        | none => rfl
        | some h => exact getKey_setKey_ne _ _ _ _ (Ne.symm hdc)

theorem getKey_subscribeBindings (outcome : BindOutcome) (channels : List Channel)
    (c : Channel) :
    getKey (subscribeBindings outcome channels) c =
      if c ∈ channels then channelAttempt outcome c else none := by
  rw [subscribeBindings, getKey_subscribeBindings_aux]
  by_cases hmem : c ∈ channels
  · by_cases hsome : (channelAttempt outcome c).isSome
    · simp [hmem, hsome]
    · simp only [hmem, if_true]
      rw [Option.not_isSome_iff_eq_none] at hsome
      simp [hsome, getKey]
  · simp [hmem, getKey]

/-- C1: after `Subscribe(i, channels, addr)` has settled and before any other
    mutation of `i`, `List()` (GET /users) holds for `i` exactly those of the
    requested channels whose binding attempt succeeded — `slack` mapped to the
    constant marker, every other successful channel mapped to the handle the
    binding client returned — and nothing of `i`'s previous bindings survives:
    the result equals what subscribing against the empty registry yields. -/
theorem subscribe_then_list_exact (users : Users) (i : Identity)
    (channels : List Channel) (outcome : BindOutcome) (c : Channel) (h : Handle) :
    (getKey ((getKey (listUsers (subscribe users i channels outcome)) i).getD []) c
        = some h ↔
      c ∈ channels ∧
        ((c = "slack" ∧ h = SLACK_BINDING) ∨
         (c ≠ "slack" ∧ outcome c = Except.ok h))) ∧
    getKey (listUsers (subscribe users i channels outcome)) i
      = getKey (listUsers (subscribe [] i channels outcome)) i := by
  constructor
  · rw [listUsers, subscribe, getKey_setKey_self, Option.getD_some,
      getKey_subscribeBindings]
    by_cases hmem : c ∈ channels
    · simp only [hmem, if_true, true_and]
      by_cases hsl : c = "slack"
      · subst hsl
        simp only [channelAttempt, if_true, Option.some_inj]
        simp [eq_comm]
      · simp only [channelAttempt, hsl, if_false]
        cases hout : outcome c with
        | ok hh => simp [hsl]
        | error e => simp [hsl]
    · simp [hmem]
  · simp [listUsers, subscribe, getKey_setKey_self]

/- ---------------------------------------------------------------------
   Persistence after subscribe (src/app.js lines 171-176)
--------------------------------------------------------------------- -/

/-- Whether the promise pushed for one channel of a subscribe command settles
    fulfilled: the `slack` assignment is pushed as an already-settled value,
    every other channel's promise fulfils exactly when `notify.addBinding`
    does (src/app.js lines 146-163). -/
def bindingOk (outcome : BindOutcome) (c : Channel) : Bool :=
  c = "slack" ||
    match outcome c with
    | Except.ok _ => true
    | Except.error _ => false

/-- Number of `persistUsers()` invocations a subscribe request performs
    (src/app.js lines 171-176): `Promise.all(promises).then(persistUsers)`
    runs the persist exactly when every pushed promise fulfils; on any
    rejection the chain falls to `.catch`, which only logs. -/
def subscribePersistCount (outcome : BindOutcome) (channels : List Channel) : Nat :=
  if channels.all (bindingOk outcome) then 1 else 0

/-- An environment in which every external binding creation fails. -/
def failAllBindings : BindOutcome := fun _ => Except.error "binding creation failed"

/-- C2 counterexample: subscribing to the single channel `sms` while its
    binding creation fails performs no persist at all — the claim that the
    snapshot is still persisted exactly once under partial failure is false. -/
theorem subscribe_failed_binding_skips_persist :
    ¬ subscribePersistCount failAllBindings ["sms"] = 1 := by decide

/-- C2 amended: the snapshot is persisted exactly once if and only if every
    channel-binding attempt of the request settles fulfilled; as soon as one
    attempt fails the request persists nothing (the rejection is only
    logged), although every failed channel is still omitted from the binding
    set held in memory. -/
theorem subscribe_persist_iff_all_ok (outcome : BindOutcome) (channels : List Channel) :
    (subscribePersistCount outcome channels = 1 ↔
      ∀ c ∈ channels, bindingOk outcome c = true) ∧
    (subscribePersistCount outcome channels = 0 ↔
      ∃ c ∈ channels, bindingOk outcome c = false) ∧
    ∀ c ∈ channels, bindingOk outcome c = false →
      getKey (subscribeBindings outcome channels) c = none := by
  refine ⟨?_, ?_, ?_⟩
  · rw [subscribePersistCount]
    cases hall : channels.all (bindingOk outcome) with
    | true => exact iff_of_true (by simp) (List.all_eq_true.mp hall)
    | false =>
      refine iff_of_false (by simp) ?_
      intro hforall
      rw [List.all_eq_true.mpr hforall] at hall
      exact Bool.noConfusion hall
  · rw [subscribePersistCount]
    cases hall : channels.all (bindingOk outcome) with
    | true =>
      refine iff_of_false (by simp) ?_
      rintro ⟨c, hc, hfalse⟩
      rw [List.all_eq_true.mp hall c hc] at hfalse
      exact Bool.noConfusion hfalse
    | false =>
      refine iff_of_true (by simp) ?_
      rcases List.all_eq_false.mp hall with ⟨c, hc, hfalse⟩
      exact ⟨c, hc, Bool.eq_false_iff.mpr hfalse⟩
  · intro c hc hfalse
    have hsl : ¬ c = "slack" := by
      intro hh
      rw [bindingOk, hh] at hfalse
      simp at hfalse
    have herr : channelAttempt outcome c = none := by
      rw [bindingOk] at hfalse
      rw [channelAttempt]
      simp only [hsl, if_false]
      cases hout : outcome c with
      | ok h => rw [hout] at hfalse; simp at hfalse
      | error e => rfl
    rw [getKey_subscribeBindings, herr]
    simp

/-- C2 amended, witness: for the concrete request channels `slack, sms` with
    `sms` failing, the persist count is zero and `sms` is absent from the
    binding set. -/
theorem subscribe_persist_iff_all_ok_witness :
    subscribePersistCount failAllBindings ["slack", "sms"] = 0 ∧
      getKey (subscribeBindings failAllBindings ["slack", "sms"]) "sms" = none :=
  ⟨((subscribe_persist_iff_all_ok failAllBindings ["slack", "sms"]).2.1).mpr
      ⟨"sms", by decide, by decide⟩,
    (subscribe_persist_iff_all_ok failAllBindings ["slack", "sms"]).2.2 "sms"
      (by decide) (by decide)⟩

/- ---------------------------------------------------------------------
   Unsubscribe (src/app.js lines 108-125)
--------------------------------------------------------------------- -/

/-- Observable result of the unsubscribe branch of POST /users: the registry
    afterwards, the binding handles whose deletion was requested through
    `notify.deleteBinding`, and how many times `persistUsers()` ran. -/
structure UnsubscribeResult where
  users : Users
  deleted : List Handle
  persistCount : Nat
deriving DecidableEq

/-- The unsubscribe branch (src/app.js lines 108-120): when the identity is
    present, every binding whose channel kind is not `slack` is deleted via
    the binding client (`bindType != null` never excludes a string key), the
    identity's entry is removed and the registry persisted; when absent,
    nothing happens. Either way the handler replies with the unsubscribed
    message (lines 121-125). -/
def unsubscribe (users : Users) (identity : Identity) : UnsubscribeResult :=
  match getKey users identity with
  | some b =>
      { users := delKey users identity
        deleted := (b.filter (fun q => q.1 != "slack")).map Prod.snd
        persistCount := 1 }
  | none => { users := users, deleted := [], persistCount := 0 }

/-- C5: unsubscribing a present identity requests deletion of exactly its
    externally-backed (non-slack) binding handles, removes the identity's
    entry entirely while leaving every other identity untouched, and persists
    once; unsubscribing an absent identity mutates nothing, deletes nothing
    and does not persist — in neither case is it an error. -/
theorem unsubscribe_present_absent (users : Users) (i : Identity) :
    (∀ b, getKey users i = some b →
      getKey (unsubscribe users i).users i = none ∧
      (∀ j, j ≠ i → getKey (unsubscribe users i).users j = getKey users j) ∧
      (∀ h, h ∈ (unsubscribe users i).deleted ↔
        ∃ c, (c, h) ∈ b ∧ c ≠ "slack") ∧
      (unsubscribe users i).persistCount = 1) ∧
    (getKey users i = none →
      (unsubscribe users i).users = users ∧
      (unsubscribe users i).deleted = [] ∧
      (unsubscribe users i).persistCount = 0) := by
  constructor
  · intro b hb
    refine ⟨?_, ?_, ?_, ?_⟩
    · simp only [unsubscribe, hb]
      exact getKey_delKey_self users i
    · intro j hj
      simp only [unsubscribe, hb]
      exact getKey_delKey_ne users i j hj
    · intro h
      simp only [unsubscribe, hb]
      constructor
      · intro hmem
        rcases List.mem_map.mp hmem with ⟨q, hq, hq2⟩
        rcases List.mem_filter.mp hq with ⟨hqb, hqs⟩
        refine ⟨q.1, ?_, ?_⟩
        · rw [← hq2]
          simpa using hqb
        · simpa using hqs
      · rintro ⟨c, hcb, hcs⟩
        refine List.mem_map.mpr ⟨(c, h), List.mem_filter.mpr ⟨hcb, ?_⟩, rfl⟩
        simpa using hcs
    · simp [unsubscribe, hb]
  · intro hb
    simp [unsubscribe, hb]

/-- C5 witness: a concrete registry holding `jdoe` with an sms binding and
    the slack marker — unsubscribing `jdoe` removes the entry, requests
    deletion of the sms handle only and persists; unsubscribing the absent
    `ghost` changes nothing. -/
theorem unsubscribe_present_absent_witness :
    getKey (unsubscribe [("jdoe", [("sms", "BS123"), ("slack", SLACK_BINDING)])]
        "jdoe").users "jdoe" = none ∧
      ("BS123" ∈ (unsubscribe [("jdoe", [("sms", "BS123"), ("slack", SLACK_BINDING)])]
        "jdoe").deleted ↔ True) ∧
      (unsubscribe [("jdoe", [("sms", "BS123"), ("slack", SLACK_BINDING)])]
        "jdoe").persistCount = 1 ∧
      (unsubscribe [("jdoe", [("sms", "BS123"), ("slack", SLACK_BINDING)])]
        "ghost").users = [("jdoe", [("sms", "BS123"), ("slack", SLACK_BINDING)])] := by
  have hp := (unsubscribe_present_absent
    [("jdoe", [("sms", "BS123"), ("slack", SLACK_BINDING)])] "jdoe").1
    [("sms", "BS123"), ("slack", SLACK_BINDING)] (by rw [SLACK_BINDING]; decide)
  have ha := (unsubscribe_present_absent
    [("jdoe", [("sms", "BS123"), ("slack", SLACK_BINDING)])] "ghost").2
    (by rw [SLACK_BINDING]; decide)
  refine ⟨hp.1, ?_, hp.2.2.2, ha.1⟩
  rw [iff_true]
  exact (hp.2.2.1 "BS123").mpr ⟨"sms", by rw [SLACK_BINDING]; decide, by decide⟩

/- ---------------------------------------------------------------------
   Menu readiness (src/app.js lines 49-74, 253-263, 270-279)
--------------------------------------------------------------------- -/

/-- Modelled from the spec: the content returned by the external menu
    provider on a successful fetch (src/cater2me.js is not under src/).
    Spec section 6 treats it as opaque (`FetchTodaysMenu() -> content | error`);
    it is embedded as a structure — a JavaScript object, hence never falsy in
    the null check of GET /menu. -/
structure MenuContent where
  text : String
deriving DecidableEq

/-- One settled outcome of `cater2me.loadTodaysMenu()` as observed by the
    cron tick handler (src/app.js lines 58-72). -/
inductive RefreshEvent where
  | ok (c : MenuContent)
  | failed (err : String)
deriving DecidableEq

/-- src/app.js lines 59-71: a fulfilled load overwrites `cater2MeMenu`; a
    rejected load only logs the warning, retaining the previous value. -/
def applyRefresh (menu : Option MenuContent) (e : RefreshEvent) : Option MenuContent :=
  match e with
  | RefreshEvent.ok c => some c
  | RefreshEvent.failed _ => menu

/-- The value of `cater2MeMenu` after a sequence of settled refresh attempts,
    starting from the initial null (src/app.js line 49). -/
def menuAfter (events : List RefreshEvent) : Option MenuContent :=
  events.foldl applyRefresh none

/-- The 503 body of GET /menu (src/app.js line 257). -/
def MENU_UNAVAILABLE : String := "Todays menu is currently unavailable, try again later."

/-- GET /menu (src/app.js lines 253-263): while `cater2MeMenu` is still null
    the handler answers 503 with the unavailable text, otherwise 200 with the
    stored content. -/
def getMenu (menu : Option MenuContent) : Except String MenuContent :=
  match menu with
  | none => Except.error MENU_UNAVAILABLE
  | some c => Except.ok c

theorem foldl_applyRefresh_isSome (l : List RefreshEvent) :
    ∀ init : Option MenuContent,
      ((l.foldl applyRefresh init).isSome = true ↔
        (∃ c, RefreshEvent.ok c ∈ l) ∨ init.isSome = true) := by
  induction l with
  | nil =>
    intro init
    simp
  | cons e tl ih =>
    intro init
    rw [List.foldl_cons, ih]
    cases e with
    | ok c =>
      apply iff_of_true
      · right
        simp [applyRefresh]
      · left
        exact ⟨c, List.mem_cons_self _ _⟩
    | failed err =>
      simp [applyRefresh]

theorem foldl_applyRefresh_no_ok (l : List RefreshEvent) :
    ∀ init : Option MenuContent,
      (∀ e ∈ l, ∀ d, e ≠ RefreshEvent.ok d) → l.foldl applyRefresh init = init := by
  induction l with
  | nil =>
    intro init _
    rfl
  | cons e tl ih =>
    intro init h
    rw [List.foldl_cons]
    cases e with
    | ok c => exact absurd rfl (h _ (List.mem_cons_self _ _) c)
    | failed err => exact ih init (fun e2 he d => h e2 (List.mem_cons_of_mem _ he) d)

/-- C6: GET /menu returns stored content exactly when some refresh attempt in
    the history succeeded, and the explicit unavailable signal otherwise —
    in particular with no refresh, or with only failed refreshes, it is
    unavailable, and after a success followed by only failures it returns the
    stale content of the last success (a failed refresh never clears it). -/
theorem menu_read_availability (events : List RefreshEvent) :
    ((∃ c, getMenu (menuAfter events) = Except.ok c) ↔
      ∃ c, RefreshEvent.ok c ∈ events) ∧
    ((∀ c, RefreshEvent.ok c ∉ events) →
      getMenu (menuAfter events) = Except.error MENU_UNAVAILABLE) ∧
    ∀ (pre post : List RefreshEvent) (c : MenuContent),
      events = pre ++ RefreshEvent.ok c :: post →
      (∀ e ∈ post, ∀ d, e ≠ RefreshEvent.ok d) →
      getMenu (menuAfter events) = Except.ok c := by
  refine ⟨?_, ?_, ?_⟩
  · have hs : (menuAfter events).isSome = true ↔ ∃ c, RefreshEvent.ok c ∈ events := by
      simpa using foldl_applyRefresh_isSome events none
    rw [← hs]
    cases hm : menuAfter events with
    | none => simp [getMenu]
    | some c => simp [getMenu]
  · intro h
    have hnone : menuAfter events = none :=
      foldl_applyRefresh_no_ok events none (fun e he d hd => h d (hd ▸ he))
    rw [hnone]
    rfl
  · intro pre post c hev hpost
    subst hev
    rw [menuAfter, List.foldl_append, List.foldl_cons]
    rw [show applyRefresh (pre.foldl applyRefresh none) (RefreshEvent.ok c) = some c
      from rfl]
    rw [foldl_applyRefresh_no_ok post (some c) hpost]
    rfl

/-- C6 witness: the history success-then-failure serves the stale successful
    content, while the failure-only and empty histories are unavailable. -/
theorem menu_read_availability_witness :
    getMenu (menuAfter [RefreshEvent.ok ⟨"pizza"⟩, RefreshEvent.failed "net down"])
        = Except.ok ⟨"pizza"⟩ ∧
      getMenu (menuAfter [RefreshEvent.failed "net down"])
        = Except.error MENU_UNAVAILABLE ∧
      getMenu (menuAfter []) = Except.error MENU_UNAVAILABLE := by
  refine ⟨?_, ?_, ?_⟩
  · refine (menu_read_availability
      [RefreshEvent.ok ⟨"pizza"⟩, RefreshEvent.failed "net down"]).2.2
      [] [RefreshEvent.failed "net down"] ⟨"pizza"⟩ rfl ?_
    intro e he d
    rcases List.mem_singleton.mp he with rfl
    simp
  · refine (menu_read_availability [RefreshEvent.failed "net down"]).2.1 ?_
    intro c hc
    simp at hc
  · refine (menu_read_availability []).2.1 ?_
    intro c hc
    simp at hc

/- ---------------------------------------------------------------------
   Startup sequencing (src/app.js lines 270-279)
--------------------------------------------------------------------- -/

/-- Outcome of the startup sequencing. -/
inductive StartupResult where
  | listening
  | aborted (err : String)
deriving DecidableEq

/-- The settled outcome of the `cater2MeMenuLoaded` promise as a function of
    the first refresh attempt (src/app.js lines 59-71): it fulfils with the
    menu on success and rejects with the load error on failure. -/
def firstLoadOutcome (e : RefreshEvent) : Except String MenuContent :=
  match e with
  | RefreshEvent.ok c => Except.ok c
  | RefreshEvent.failed err => Except.error err

/-- src/app.js lines 271-279: `Promise.all` over the first menu load — on
    fulfilment the server starts listening; on rejection the error handler
    logs and rethrows, so `app.listen` is never reached. -/
def startupSequence (firstLoad : Except String MenuContent) : StartupResult :=
  match firstLoad with
  | Except.ok _ => StartupResult.listening
  | Except.error err => StartupResult.aborted err

/-- C3: evaluating the startup sequencing at a failed first menu load shows
    the service never begins serving — the sequence aborts instead of
    listening — while a successful first load starts the listener. Serving is
    therefore conditioned on the outcome of the first refresh attempt,
    contrary to the claim that it begins once the attempt settles either
    way. -/
theorem startup_aborts_on_failed_first_load :
    startupSequence (firstLoadOutcome (RefreshEvent.failed "menu fetch timed out"))
        = StartupResult.aborted "menu fetch timed out" ∧
      startupSequence (firstLoadOutcome (RefreshEvent.ok ⟨"tacos"⟩))
        = StartupResult.listening :=
  ⟨rfl, rfl⟩

/- ---------------------------------------------------------------------
   Binding-client calls of the subscribe loop (src/app.js lines 146-163)
--------------------------------------------------------------------- -/

/-- One call issued to the channel binding client `notify.addBinding`
    (src/app.js line 152). -/
structure BindCall where
  identity : Identity
  channelKind : String
  address : String
deriving DecidableEq

/-- The binding-client calls a subscribe command issues, each tagged with the
    requested channel it was made for (src/app.js lines 146-163): `slack`
    issues no call; every other channel calls `notify.addBinding` with the
    literal kind "sms" and the originating address `req.body.From`. -/
def subscribeBindCalls (identity : Identity) (fromAddr : String)
    (channels : List Channel) : List (Channel × BindCall) :=
  channels.foldl
    (fun acc c =>
      if c = "slack" then acc
      else acc ++
        [(c, { identity := identity, channelKind := "sms", address := fromAddr })])
    []

/-- C7: evaluating the subscribe loop at a request for channels
    `slack, ios, sms` shows every issued binding call carries the constant
    channel kind "sms": the call made for the `ios` channel does not carry
    kind "ios", so an externally-backed channel other than sms is not
    provisioned under its own kind as claimed (the source marks the missing
    support with a TODO). -/
theorem subscribe_bind_calls_constant_sms_kind :
    subscribeBindCalls "jdoe" "+15551230000" ["slack", "ios", "sms"] =
        [("ios", { identity := "jdoe", channelKind := "sms", address := "+15551230000" }),
         ("sms", { identity := "jdoe", channelKind := "sms", address := "+15551230000" })] ∧
      ("ios" : String) ≠ "sms" := by
  exact ⟨rfl, by decide⟩

/- ---------------------------------------------------------------------
   Snapshot load at process start (src/app.js lines 40-46)
--------------------------------------------------------------------- -/

/-- Startup load of the registry snapshot (src/app.js lines 40-46):
    `fs.readFileSync` either yields the raw file text or throws (missing or
    unreadable file), and `JSON.parse` — an external oracle here — either
    yields the stored mapping or throws on unparseable text; the surrounding
    try/catch turns any throw into the empty registry. -/
def initialUsers (readResult : Except String String)
    (parse : String → Except String Users) : Users :=
  match readResult with
  | Except.error _ => []
  | Except.ok raw =>
      match parse raw with
      | Except.error _ => []
      | Except.ok u => u

/-- C9: the registry starts as the parsed snapshot when the file is readable
    and parseable, and as the empty mapping when the read throws or the parse
    throws — a bad snapshot always yields a registry, never a fatal error,
    and startup continues with it. -/
theorem initial_users_tolerates_bad_snapshot
    (parse : String → Except String Users) :
    (∀ e, initialUsers (Except.error e) parse = []) ∧
    (∀ raw e, parse raw = Except.error e → initialUsers (Except.ok raw) parse = []) ∧
    (∀ raw u, parse raw = Except.ok u → initialUsers (Except.ok raw) parse = u) := by
  refine ⟨fun e => rfl, ?_, ?_⟩
  · intro raw e h
    simp [initialUsers, h]
  · intro raw u h
    simp [initialUsers, h]

/-- C9 witness: a missing file and an unparseable file both yield the empty
    registry. -/
theorem initial_users_tolerates_bad_snapshot_witness :
    initialUsers (Except.error "ENOENT") (fun _ => Except.error "SyntaxError") = [] ∧
      initialUsers (Except.ok "not json") (fun _ => Except.error "SyntaxError") = [] :=
  ⟨(initial_users_tolerates_bad_snapshot (fun _ => Except.error "SyntaxError")).1
      "ENOENT",
    (initial_users_tolerates_bad_snapshot (fun _ => Except.error "SyntaxError")).2.1
      "not json" "SyntaxError" rfl⟩

/- ---------------------------------------------------------------------
   The persistUsers promise (src/app.js lines 282-293)
--------------------------------------------------------------------- -/

/-- A settled JavaScript promise: `fulfilled v` after the fulfil capability
    was invoked with `v`, `rejectedWith v` after the reject capability was. -/
inductive Settled (α β : Type) where
  | fulfilled (v : α)
  | rejectedWith (v : β)
deriving DecidableEq

/-- `new Promise(executor)`: the executor receives the fulfil capability
    first and the reject capability second, positionally. -/
def newPromise {α β : Type}
    (executor : (α → Settled α β) → (β → Settled α β) → Settled α β) :
    Settled α β :=
  executor Settled.fulfilled Settled.rejectedWith

/-- `persistUsers` (src/app.js lines 282-293) as a function of the settled
    `fs.writeFile` outcome (`some err` when the write failed, `none` when it
    succeeded): the executor names its first parameter `reject` and its
    second `resolve`, binding the names to the positional capabilities in
    swapped order; the write callback then calls `reject(err)` on a write
    error and `resolve()` on success. -/
def persistUsersPromise (writeErr : Option String) : Settled String Unit :=
  newPromise (fun reject resolve =>
    match writeErr with
    | some err => reject err
    | none => resolve ())

/-- C10: a failed write fulfils the promise carrying the error, and a
    successful write rejects it with no value — exactly the inverted outcome
    a caller awaiting the persist for durability would observe. -/
theorem persist_users_promise_inverted :
    (∀ err, persistUsersPromise (some err) = Settled.fulfilled err) ∧
      persistUsersPromise none = Settled.rejectedWith () :=
  ⟨fun _ => rfl, rfl⟩

/- ---------------------------------------------------------------------
   Command parser (modelled from the spec; src/util.js is not under src/)
   and the POST /users handler (src/app.js lines 92-178)
--------------------------------------------------------------------- -/

/-- Whitespace for trimming. -/
def isSpaceChar (c : Char) : Bool := c = ' ' || c = '\t' || c = '\n' || c = '\r'

/-- Strip leading and trailing whitespace. -/
def trimChars (l : List Char) : List Char :=
  ((l.dropWhile isSpaceChar).reverse.dropWhile isSpaceChar).reverse

/-- Case-fold to lower case. -/
def lowerChars (l : List Char) : List Char := l.map Char.toLower

/-- Split at every occurrence of the separator. -/
def splitOnChar (sep : Char) : List Char → List (List Char)
  | [] => [[]]
  | c :: rest =>
      let r := splitOnChar sep rest
      if c = sep then [] :: r
      else
        match r with
        | [] => [[c]]
        | h :: t => (c :: h) :: t

/-- Modelled from the spec: the closed, parse-time validated set of channel
    kinds (`RegistrationCommand.VALID_CHANNELS` of src/util.js, which is not
    under src/); the help text of POST /users lists them as sms, slack, ios. -/
def VALID_CHANNELS : List String := ["sms", "slack", "ios"]

/-- A parsed registration command, as constructed by `RegistrationCommand`
    of src/util.js (not under src/); fields per spec section 3. -/
structure RegistrationCommand where
  identity : String
  isUnsubscribe : Bool
  channels : List Channel
deriving DecidableEq

/-- Modelled from the spec (section 4.1; src/util.js is not under src/): the
    grammar is identity, colon, payload — the identity is trimmed and
    lower-cased and must be non-empty, and a missing separator or empty
    identity fails construction (`none`, the MalformedCommand outcome); a
    payload equal to the unsubscribe keyword stop (case-insensitive) yields
    an unsubscribe command; any other payload is a comma-separated channel
    list whose tokens are trimmed and case-folded with invalid tokens
    silently dropped, yielding a subscribe command even when no valid
    channel remains. -/
def parseRegistrationCommand (body : String) : Option RegistrationCommand :=
  match splitOnChar ':' body.data with
  | [] => none
  | [_] => none
  | idPart :: payloadParts =>
      let identity := String.mk (lowerChars (trimChars idPart))
      if identity = "" then none
      else
        let payloadChars := trimChars (lowerChars (List.intercalate [':'] payloadParts))
        if payloadChars = "stop".data then
          some { identity := identity, isUnsubscribe := true, channels := [] }
        else
          some { identity := identity, isUnsubscribe := false,
                 channels :=
                   ((splitOnChar ',' payloadChars).map
                       (fun t => String.mk (trimChars t))).filter
                     (fun t => VALID_CHANNELS.contains t) }

/-- The reply sent by POST /users, by its leading user-facing message
    (src/app.js lines 98-104, 121-125, 128-133, 137-139, 165-169). -/
inductive UsersPostResponse where
  | helpText
  | unsubscribed (identity : String)
  | noValidChannels
  | registered (identity : String) (channels : List Channel)
deriving DecidableEq

/-- The leading message text of each POST /users reply. -/
def responseText : UsersPostResponse → String
  | UsersPostResponse.helpText =>
      "Register by texting:\n[ldap username]: [comma separated list of channels to be notified on]"
  | UsersPostResponse.unsubscribed identity => "You have been unsubscribed, " ++ identity
  | UsersPostResponse.noValidChannels => "You must specify at least one valid channel"
  | UsersPostResponse.registered identity channels =>
      "Thanks for signing up " ++ identity ++
        ". You\x27re signed up to receive notifications on " ++
        String.intercalate ", " channels ++ "."

/-- Observable outcome of one POST /users request once all asynchronous
    work has settled. -/
structure UsersPostResult where
  users : Users
  response : UsersPostResponse
  bindCalls : List (Channel × BindCall)
  persistCount : Nat
deriving DecidableEq

/-- POST /users (src/app.js lines 92-178): a body failing to parse answers
    the help text and touches nothing; an unsubscribe command runs the
    unsubscribe branch; a subscribe command with an empty channel list is
    rejected with the no-valid-channel message before the registry is
    touched; otherwise the subscribe branch replaces the identity's
    bindings, issues the binding-client calls and persists according to the
    settled attempts. -/
def handleUsersPost (users : Users) (body : String) (fromAddr : String)
    (outcome : BindOutcome) : UsersPostResult :=
  match parseRegistrationCommand body with
  | none =>
      { users := users, response := UsersPostResponse.helpText,
        bindCalls := [], persistCount := 0 }
  | some cmd =>
      if cmd.isUnsubscribe then
        { users := (unsubscribe users cmd.identity).users
          response := UsersPostResponse.unsubscribed cmd.identity
          bindCalls := []
          persistCount := (unsubscribe users cmd.identity).persistCount }
      else if cmd.channels.length = 0 then
        { users := users, response := UsersPostResponse.noValidChannels,
          bindCalls := [], persistCount := 0 }
      else
        { users := subscribe users cmd.identity cmd.channels outcome
          response := UsersPostResponse.registered cmd.identity cmd.channels
          bindCalls := subscribeBindCalls cmd.identity fromAddr cmd.channels
          persistCount := subscribePersistCount outcome cmd.channels }

/-- C8: a body that parses to a subscribe command with zero valid channels
    (unknown tokens having been filtered out rather than rejected) is not a
    parse error: the handler replies with the specific no-valid-channel
    message and leaves everything untouched — registry unchanged, no binding
    call issued, nothing persisted. -/
theorem no_valid_channels_rejects_without_mutation
    (users : Users) (body : String) (fromAddr : String) (outcome : BindOutcome)
    (cmd : RegistrationCommand)
    (hparse : parseRegistrationCommand body = some cmd)
    (hsub : cmd.isUnsubscribe = false)
    (hempty : cmd.channels = []) :
    handleUsersPost users body fromAddr outcome =
        { users := users, response := UsersPostResponse.noValidChannels,
          bindCalls := [], persistCount := 0 } ∧
      responseText UsersPostResponse.noValidChannels =
        "You must specify at least one valid channel" := by
  constructor
  · rw [handleUsersPost, hparse]
    simp [hsub, hempty]
  · rfl

/-- C8 witness: `jdoe: bogus_channel` parses as a subscribe command whose
    only token was dropped, and the handler rejects it leaving the registry
    unchanged and persisting nothing. -/
theorem no_valid_channels_rejects_without_mutation_witness :
    handleUsersPost [] "jdoe: bogus_channel" "+15550001111" failAllBindings =
        { users := [], response := UsersPostResponse.noValidChannels,
          bindCalls := [], persistCount := 0 } ∧
      responseText UsersPostResponse.noValidChannels =
        "You must specify at least one valid channel" :=
  no_valid_channels_rejects_without_mutation [] "jdoe: bogus_channel" "+15550001111"
    failAllBindings { identity := "jdoe", isUnsubscribe := false, channels := [] }
    (by decide) rfl rfl

/- ---------------------------------------------------------------------
   Dispatch (src/app.js lines 240-250)
--------------------------------------------------------------------- -/

/-- Settled outcome of one send attempt for one (subscriber, channel) pair. -/
abbrev SendOutcome := Identity → Channel → Except String Unit

/-- Modelled from the spec: `notify.notifyUserByIdentity` (src/notify.js is
    not under src/). Spec section 4.3: the dispatcher invokes, for each bound
    channel of the subscriber, that channel's send capability; the notify
    call covers the externally-backed (non-slack) bindings of the identity,
    each send settling independently of the others. -/
def notifyUserByIdentity (send : SendOutcome) (u : Identity) (b : Bindings) :
    List ((Identity × Channel) × Except String Unit) :=
  (b.filter (fun q => q.1 != "slack")).map (fun q => ((u, q.1), send u q.1))

/-- JavaScript truthiness of a property access yielding a string or
    undefined: truthy exactly when present and non-empty. -/
def truthy (o : Option String) : Bool :=
  match o with
  | some h => h != ""
  | none => false

theorem truthy_iff (o : Option String) :
    truthy o = true ↔ ∃ h, o = some h ∧ h ≠ "" := by
  cases o with
  | none => simp [truthy]
  | some h => simp [truthy]

/-- The slack send of the dispatch loop (src/app.js lines 245-247): issued
    when `users[u].slack` is truthy, that is present with a non-empty
    handle. -/
def slackSend (send : SendOutcome) (u : Identity) (b : Bindings) :
    List ((Identity × Channel) × Except String Unit) :=
  if truthy (getKey b "slack") then [((u, "slack"), send u "slack")] else []

/-- All sends the dispatch loop body issues for one registry entry. -/
def perUserSends (send : SendOutcome) (p : Identity × Bindings) :
    List ((Identity × Channel) × Except String Unit) :=
  notifyUserByIdentity send p.1 p.2 ++ slackSend send p.1 p.2

/-- POST /lunch (src/app.js lines 240-250): iterate every registry entry,
    issue its sends, and reply Notifying unconditionally. -/
def dispatch (users : Users) (send : SendOutcome) :
    List ((Identity × Channel) × Except String Unit) × String :=
  (users.foldl (fun acc p => acc ++ perUserSends send p) [], "Notifying")

theorem foldl_append_eq_flatMap {α β : Type} (f : α → List β) (l : List α) :
    ∀ acc : List β, l.foldl (fun a x => a ++ f x) acc = acc ++ l.flatMap f := by
  induction l with
  | nil =>
    intro acc
    simp
  | cons x tl ih =>
    intro acc
    rw [List.foldl_cons, ih, List.flatMap_cons, List.append_assoc]

theorem perUserSends_map_fst (send send2 : SendOutcome) (p : Identity × Bindings) :
    (perUserSends send p).map Prod.fst = (perUserSends send2 p).map Prod.fst := by
  rw [perUserSends, perUserSends, List.map_append, List.map_append]
  congr 1
  · rw [notifyUserByIdentity, notifyUserByIdentity, List.map_map, List.map_map]
    rfl
  · rw [slackSend, slackSend]
    by_cases ht : truthy (getKey p.2 "slack") = true
    · rw [if_pos ht, if_pos ht]
      rfl
    · rw [if_neg ht, if_neg ht]

theorem mem_userSends_iff (send : SendOutcome) (u u2 : Identity) (b : Bindings)
    (c : Channel) (hsl : getKey b "slack" ≠ some "") :
    (∃ r, ((u2, c), r) ∈ notifyUserByIdentity send u b ++ slackSend send u b) ↔
      u2 = u ∧ (getKey b c).isSome = true := by
  constructor
  · rintro ⟨r, hr⟩
    rcases List.mem_append.mp hr with hmem | hmem
    · rw [notifyUserByIdentity] at hmem
      rcases List.mem_map.mp hmem with ⟨q, hq, heq⟩
      rcases List.mem_filter.mp hq with ⟨hqb, _⟩
      have hu : u = u2 := congrArg (fun x => x.1.1) heq
      have hc : q.1 = c := congrArg (fun x => x.1.2) heq
      refine ⟨hu.symm, ?_⟩
      rw [getKey_isSome_iff]
      refine ⟨q.2, ?_⟩
      rw [← hc]
      simpa using hqb
    · rw [slackSend] at hmem
      by_cases ht : truthy (getKey b "slack") = true
      · rw [if_pos ht] at hmem
        have heq := List.mem_singleton.mp hmem
        have hu : u2 = u := congrArg (fun x => x.1.1) heq
        have hc : c = "slack" := congrArg (fun x => x.1.2) heq
        rcases (truthy_iff _).mp ht with ⟨h, hk, _⟩
        refine ⟨hu, ?_⟩
        rw [hc, hk]
        rfl
      · rw [if_neg ht] at hmem
        simp at hmem
  · rintro ⟨hu, hsome⟩
    subst hu
    rw [getKey_isSome_iff] at hsome
    rcases hsome with ⟨h, hmem⟩
    by_cases hc : c = "slack"
    · subst hc
      have hksome : (getKey b "slack").isSome = true :=
        (getKey_isSome_iff b "slack").mpr ⟨h, hmem⟩
      cases hk : getKey b "slack" with
      | none =>
        rw [hk] at hksome
        simp at hksome
      | some h2 =>
        have hh2 : h2 ≠ "" := fun he => hsl (by rw [hk, he])
        have ht : truthy (getKey b "slack") = true := (truthy_iff _).mpr ⟨h2, hk, hh2⟩
        refine ⟨send u2 "slack", List.mem_append.mpr (Or.inr ?_)⟩
        rw [slackSend, if_pos ht]
        exact List.mem_singleton.mpr rfl
    · refine ⟨send u2 c, List.mem_append.mpr (Or.inl ?_)⟩
      rw [notifyUserByIdentity]
      refine List.mem_map.mpr ⟨(c, h), List.mem_filter.mpr ⟨hmem, ?_⟩, rfl⟩
      simpa using hc

/-- C4: over any registry with unique identities whose stored slack handles
    are truthy, and for arbitrary send outcomes, dispatch attempts one send
    for exactly every (subscriber, channel) pair present in the registry;
    the sequence of attempted pairs is identical for any two outcome
    assignments — so no failing send suppresses any other send — and the
    handler acknowledges with Notifying unconditionally. -/
theorem dispatch_attempts_all_pairs (users : Users) (send send2 : SendOutcome)
    (hnd : (users.map Prod.fst).Nodup)
    (hsl : ∀ p ∈ users, getKey p.2 "slack" ≠ some "") :
    (dispatch users send).2 = "Notifying" ∧
    (dispatch users send).1.map Prod.fst = (dispatch users send2).1.map Prod.fst ∧
    ∀ (u : Identity) (c : Channel),
      (∃ r, ((u, c), r) ∈ (dispatch users send).1) ↔
        ∃ b, getKey users u = some b ∧ (getKey b c).isSome = true := by
  have hflat : ∀ s : SendOutcome, (dispatch users s).1 = users.flatMap (perUserSends s) := by
    intro s
    show users.foldl (fun a p => a ++ perUserSends s p) [] = _
    rw [foldl_append_eq_flatMap (perUserSends s) users []]
    rfl
  refine ⟨rfl, ?_, ?_⟩
  · rw [hflat send, hflat send2, List.map_flatMap, List.map_flatMap]
    exact List.flatMap_congr (fun p _ => perUserSends_map_fst send send2 p)
  · intro u c
    rw [hflat send]
    constructor
    · rintro ⟨r, hr⟩
      rcases List.mem_flatMap.mp hr with ⟨p, hp, hmem⟩
      rcases p with ⟨pu, pb⟩
      have hmem2 : ((u, c), r) ∈ notifyUserByIdentity send pu pb ++ slackSend send pu pb :=
        hmem
      rcases (mem_userSends_iff send pu u pb c (hsl (pu, pb) hp)).mp ⟨r, hmem2⟩ with
        ⟨rfl, hsome⟩
      exact ⟨pb, mem_getKey_of_nodup users u pb hnd hp, hsome⟩
    · rintro ⟨b, hub, hsome⟩
      have hp : (u, b) ∈ users := getKey_some_mem users u b hub
      rcases (mem_userSends_iff send u u b c (hsl (u, b) hp)).mpr ⟨rfl, hsome⟩ with ⟨r, hr⟩
      have hr2 : ((u, c), r) ∈ perUserSends send (u, b) := hr
      exact ⟨r, List.mem_flatMap.mpr ⟨(u, b), hp, hr2⟩⟩

/-- A three-subscriber registry for exercising dispatch. -/
def demoRegistry : Users :=
  [("alice", [("sms", "HA")]),
   ("bob", [("sms", "HB"), ("slack", SLACK_BINDING)]),
   ("carol", [("ios", "HC")])]

/-- A send environment in which every send to alice fails. -/
def demoSend : SendOutcome := fun u _ =>
  if u = "alice" then Except.error "sms gateway down" else Except.ok ()

/-- C4 witness: over the three-subscriber registry, with every send to alice
    failing, dispatch still acknowledges and still attempts the sends of the
    remaining subscribers on all of their channels. -/
theorem dispatch_attempts_all_pairs_witness :
    (dispatch demoRegistry demoSend).2 = "Notifying" ∧
      (∃ r, (("alice", "sms"), r) ∈ (dispatch demoRegistry demoSend).1) ∧
      (∃ r, (("bob", "sms"), r) ∈ (dispatch demoRegistry demoSend).1) ∧
      (∃ r, (("bob", "slack"), r) ∈ (dispatch demoRegistry demoSend).1) ∧
      (∃ r, (("carol", "ios"), r) ∈ (dispatch demoRegistry demoSend).1) := by
  have h := dispatch_attempts_all_pairs demoRegistry demoSend demoSend
    (by rw [demoRegistry]; decide)
    (by rw [demoRegistry, SLACK_BINDING]; decide)
  refine ⟨h.1, ?_, ?_, ?_, ?_⟩
  · exact (h.2.2 "alice" "sms").mpr ⟨[("sms", "HA")], by rw [demoRegistry]; decide, by decide⟩
  · exact (h.2.2 "bob" "sms").mpr
      ⟨[("sms", "HB"), ("slack", SLACK_BINDING)],
        by rw [demoRegistry, SLACK_BINDING]; decide, by decide⟩
  · exact (h.2.2 "bob" "slack").mpr
      ⟨[("sms", "HB"), ("slack", SLACK_BINDING)],
        by rw [demoRegistry, SLACK_BINDING]; decide,
        by rw [SLACK_BINDING]; decide⟩
  · exact (h.2.2 "carol" "ios").mpr ⟨[("ios", "HC")], by rw [demoRegistry]; decide, by decide⟩

end LunchButton
